import Mathlib

/-!
Verification of `src/main.py` of the radiology report generator.

The file shallowly embeds the two core functions of the repository:

* `generate_report` (source lines 37-94): the narrative request client with
  its bounded retry loop.  The external chat-completion call is modelled as
  an oracle `Nat → Except String String` giving each attempt's outcome.

* `create_pdf_report` (source lines 97-221): the PDF renderer with its
  inline section-taxonomy parsing loop.  The PDF object is modelled as the
  ordered trace of text-emitting calls (`Entry`); the temporary image file
  as a trace of file-system events (`FsEvent`); the fallible external
  library calls (image embedding, layout calls inside the `try` block) as
  injected-failure parameters.  The `while` loop of the section pass is not
  structurally terminating (and indeed diverges on some inputs), so it is
  embedded with explicit fuel: a result `(entries, false)` means the fuel
  ran out with the loop still running.
-/

/-- Python `str.isspace` on a single character (the characters stripped by
`str.strip()` with no argument, restricted to ASCII). -/
def pyIsSpace (c : Char) : Bool :=
  c == ' ' || c == '\t' || c == '\n' || c == '\r' || c == '\x0b' || c == '\x0c'

/-- Python `str.strip()`: drop leading and trailing whitespace. -/
def pyStrip (s : String) : String :=
  ⟨((s.data.dropWhile pyIsSpace).reverse.dropWhile pyIsSpace).reverse⟩

/-- Python `str.upper()` (ASCII fragment, which is all the source uses). -/
def pyUpper (s : String) : String :=
  ⟨s.data.map Char.toUpper⟩

/-- Python `s.startswith(pre)`. -/
def pyStartsWith (s pre : String) : Bool :=
  pre.data.isPrefixOf s.data

/-- Python `s.split('\n')` at the character-list level. -/
def splitNl : List Char → List (List Char)
  | [] => [[]]
  | '\n' :: rest => [] :: splitNl rest
  | c :: rest =>
    match splitNl rest with
    | [] => [[c]]
    | g :: gs => (c :: g) :: gs

/-- Python `report_text.split('\n')` (source line 166). -/
def pySplitLines (s : String) : List String :=
  (splitNl s.data).map fun cs => ⟨cs⟩

/-- Python `s.replace("**", "")` at the character-list level: left-to-right,
non-overlapping removal of double asterisks. -/
def removeStars : List Char → List Char
  | [] => []
  | '*' :: '*' :: rest => removeStars rest
  | c :: rest => c :: removeStars rest

/-- Python `content_line.replace("**", "")` (source line 201). -/
def pyReplaceStars (s : String) : String :=
  ⟨removeStars s.data⟩

example : pyStrip "  a b  " = "a b" := by decide
example : pySplitLines "a\n\nb" = ["a", "", "b"] := by decide
example : pySplitLines "" = [""] := by decide
example : pyReplaceStars "***FINDINGS**" = "*FINDINGS" := by decide
example : pyUpper "findings now" = "FINDINGS NOW" := by decide
example : pyStartsWith "FINDINGS:" "FINDINGS" = true := by decide

/-! ## Narrative request client (`generate_report`, source lines 37-94) -/

/-- Source line 73: `max_retries = 3`. -/
def max_retries : Nat := 3

/-- Source line 74: `retry_delay = 2`. -/
def retry_delay : Nat := 2

/-- Observable outcome of one call to `generate_report`: how many attempts
were made, the sleep durations between them, and the returned string. -/
structure ClientResult where
  attempts : Nat
  sleeps : List Nat
  result : String
deriving DecidableEq, Repr

/-- The `for attempt in range(max_retries)` loop of `generate_report`
(source lines 76-94).  `oracle k` is the outcome of the chat-completion
call on attempt `k`: `.ok text` when it succeeds, `.error e` when it raises.
`remaining` counts the loop iterations left. -/
def generateGo (oracle : Nat → Except String String) : Nat → Nat → ClientResult
  | _, 0 => ⟨0, [], ""⟩
  | attempt, remaining + 1 =>
    match oracle attempt with
    | .ok report => ⟨1, [], report⟩
    | .error _ =>
      if attempt == max_retries - 1 then ⟨1, [], "Error generating report."⟩
      else
        let r := generateGo oracle (attempt + 1) remaining
        ⟨r.attempts + 1, retry_delay :: r.sleeps, r.result⟩

/-- `generate_report` (source lines 37-94), abstracted over the outcome of
each external call. -/
def generate_report (oracle : Nat → Except String String) : ClientResult :=
  generateGo oracle 0 max_retries

example : generate_report (fun _ => .error "down") = ⟨3, [2, 2], "Error generating report."⟩ := by decide
example : generate_report (fun k => if k < 2 then .error "down" else .ok "REPORT") =
    ⟨3, [2, 2], "REPORT"⟩ := by decide
example : generate_report (fun _ => .ok "REPORT") = ⟨1, [], "REPORT"⟩ := by decide

/-! ## Section taxonomy parsing inside `create_pdf_report` (source lines 155-207) -/

/-- The keys of the `sections` dict (source lines 157-163), in insertion
order, which is the order the `for section in sections` loops visit them. -/
def sectionNames : List String :=
  ["CLINICAL INFORMATION", "TECHNIQUE", "COMPARISON", "FINDINGS", "IMPRESSION"]

/-- The header test of the outer loop (source lines 176-181):
`line.upper().startswith(section)` for each key in dict order, returning the
first matching section name.  `s` is the already-stripped line. -/
def headerMatch (s : String) : Option String :=
  sectionNames.find? fun sec => pyStartsWith (pyUpper s) sec

/-- The break test of the inner collection loop (source line 193):
`any(line.upper().startswith(section) for section in sections if section != current_section)`. -/
def isOtherHeader (current : String) (s : String) : Bool :=
  (sectionNames.filter fun sec => sec != current).any fun sec =>
    pyStartsWith (pyUpper s) sec

/-- The inner collection loop (source lines 190-197): starting from the
current line, strip each line, stop before a line that starts with a
*different* section's name, collect every non-blank stripped line.  Returns
the collected content and the remaining lines. -/
def collectContent (current : String) : List String → List String × List String
  | [] => ([], [])
  | l :: rest =>
    let s := pyStrip l
    if isOtherHeader current s then ([], l :: rest)
    else
      let p := collectContent current rest
      (if s == "" then p.1 else s :: p.1, p.2)

/-- One text-emitting call on the `pdf` object, in emission order. -/
inductive Entry where
  /-- A static or patient-field `pdf.cell` line of the preamble. -/
  | cellLine (s : String)
  /-- The Report ID / Date cells (source lines 119-121); their values come
  from `uuid`/the clock, which are external to the model. -/
  | metaLine
  /-- The `pdf.image` embedding call (source line 143). -/
  | imageEmbed
  /-- The unconditional `pdf.multi_cell(0, 5, report_text)` fallback
  (source line 152). -/
  | narrativePara (s : String)
  /-- A bold section-title cell of the structured pass (source line 186). -/
  | sectionTitle (s : String)
  /-- A content `pdf.multi_cell` of the structured pass (source line 203). -/
  | contentPara (s : String)
  /-- The radiologist signature cell (source line 214). -/
  | signatureLine (s : String)
  /-- The fixed italic disclaimer (source line 219). -/
  | disclaimerPara (s : String)
deriving DecidableEq, Repr

/-- Rendering of a collected content block (source lines 200-204): each
collected line has `"**"` removed and is stripped again; if non-empty it is
written as a `multi_cell`. -/
def renderContent (content : List String) : List Entry :=
  content.filterMap fun c =>
    let c2 := pyStrip (pyReplaceStars c)
    if c2 == "" then none else some (.contentPara c2)

/-- The `while i < len(lines)` loop of the structured pass (source lines
168-204), with fuel.  The result is the emitted entries paired with `true`
when the loop exited, `false` when the fuel ran out first.  Note the
faithful transcription of the source's missing `i += 1`: a non-blank line
that matches no header while `current_section` is `None` leaves the state
unchanged. -/
def structGo : Nat → Option String → List String → List Entry × Bool
  | 0, _, _ => ([], false)
  | _ + 1, _, [] => ([], true)
  | fuel + 1, cur?, l :: rest =>
    let s := pyStrip l
    if s == "" then structGo fuel cur? rest
    else
      match headerMatch s with
      | some sec =>
        let p := structGo fuel (some sec) rest
        (.sectionTitle sec :: p.1, p.2)
      | none =>
        match cur? with
        | some cur =>
          let q := collectContent cur (l :: rest)
          let p := structGo fuel cur? q.2
          (renderContent q.1 ++ p.1, p.2)
        | none => structGo fuel cur? (l :: rest)

example : structGo 20 none (pySplitLines "FINDINGS\nNormal heart size.\nIMPRESSION\nNo acute disease.") =
    ([.sectionTitle "FINDINGS", .contentPara "Normal heart size.",
      .sectionTitle "IMPRESSION", .contentPara "No acute disease."], true) := by decide
example : structGo 20 none (pySplitLines "hello") = ([], false) := by decide
example : structGo 20 none (pySplitLines "IMPRESSION\nx\nFINDINGS\ny") =
    ([.sectionTitle "IMPRESSION", .contentPara "x",
      .sectionTitle "FINDINGS", .contentPara "y"], true) := by decide
example : structGo 30 none (pySplitLines "FINDINGS\na\nFINDINGS\nb") =
    ([.sectionTitle "FINDINGS", .contentPara "a", .contentPara "FINDINGS",
      .contentPara "b"], true) := by decide

/-! ## The full renderer `create_pdf_report` (source lines 97-221) -/

/-- File-system effects of the transient image file. -/
inductive FsEvent where
  /-- `tempfile.NamedTemporaryFile(delete=False)` + `tmp.write(image_data)`
  (source lines 136-138). -/
  | tmpWrite
  /-- `os.unlink(tmp_path)` (source line 145). -/
  | tmpUnlink
deriving DecidableEq, Repr

/-- The arguments of `create_pdf_report` (source lines 97-98). -/
structure RenderInput where
  report_text : String
  patient_name : String
  patient_id : String
  doctor : String
  image_data : Option (List Nat)
deriving DecidableEq, Repr

/-- Python truthiness of `image_data` in `if image_data:` (source line 135):
`None` and the empty byte string are falsy. -/
def hasImage (inp : RenderInput) : Bool :=
  match inp.image_data with
  | some bs => !bs.isEmpty
  | none => false

/-- The cells written before the image block (source lines 106-132).
Empty patient fields fall back to `'Not provided'` (lines 130-131). -/
def headerEntries (inp : RenderInput) : List Entry :=
  [.cellLine "MEDICAL IMAGING CENTER",
   .cellLine "Department of Radiology",
   .cellLine "RADIOLOGY REPORT",
   .metaLine,
   .cellLine "PATIENT INFORMATION",
   .cellLine ("Name: " ++ (if inp.patient_name == "" then "Not provided" else inp.patient_name)),
   .cellLine ("ID: " ++ (if inp.patient_id == "" then "Not provided" else inp.patient_id))]

/-- The signature cell (source line 214): the doctor name, or the fixed
placeholder when it is empty. -/
def signatureEntry (inp : RenderInput) : Entry :=
  .signatureLine (if inp.doctor == "" then "AI Preliminary Interpretation" else inp.doctor)

/-- The fixed disclaimer text (source line 219). -/
def disclaimerText : String :=
  "DISCLAIMER: This AI-generated report is for preliminary informational purposes only and has not been reviewed by a licensed radiologist. It should not be used as the sole basis for clinical decision-making. Final interpretation requires review by a qualified physician."

/-- The whole `try` block of the structured pass (source lines 155-207),
with an injected failure: `exnAfter = some k` means some layout call inside
the `try` raises immediately after the `k`-th entry of the pass has been
emitted (possible only if the loop actually reaches `k` emitted entries);
the `except` clause swallows it, keeping the entries already written.
`exnAfter = none` injects no failure. -/
def structuredPass (exnAfter : Option Nat) (fuel : Nat) (text : String) :
    List Entry × Bool :=
  let p := structGo fuel none (pySplitLines text)
  match exnAfter with
  | none => p
  | some k => if k ≤ p.1.length then (p.1.take k, true) else p

/-- `create_pdf_report` (source lines 97-221), as the trace of pdf text
calls and of file-system events.  `imageOk = false` means the `pdf.image`
call (line 143) raises, e.g. on corrupt image bytes; that call is *not*
inside any `try`, so the exception leaves the function (`.error`) with the
temp file written but never unlinked.  A `none` result means the call never
returns: the structured-pass loop ran out of fuel still running. -/
def create_pdf_report (fuel : Nat) (imageOk : Bool) (exnAfter : Option Nat)
    (inp : RenderInput) : Option (Except Unit (List Entry) × List FsEvent) :=
  if hasImage inp && !imageOk then
    some (.error (), [.tmpWrite])
  else
    let p := structuredPass exnAfter fuel inp.report_text
    if p.2 then
      some (.ok (headerEntries inp
            ++ (if hasImage inp then [.imageEmbed] else [])
            ++ [.narrativePara inp.report_text]
            ++ p.1
            ++ [signatureEntry inp, .disclaimerPara disclaimerText]),
        if hasImage inp then [.tmpWrite, .tmpUnlink] else [])
    else none

deriving instance DecidableEq for Except

set_option maxRecDepth 4000

/-- The section-title texts of an emitted trace, in order. -/
def structTitles : List Entry → List String
  | [] => []
  | .sectionTitle s :: rest => s :: structTitles rest
  | _ :: rest => structTitles rest

/-- The content-paragraph texts of an emitted trace, in order. -/
def contentTexts : List Entry → List String
  | [] => []
  | .contentPara s :: rest => s :: contentTexts rest
  | _ :: rest => contentTexts rest

/-- Content paragraphs attributed to the section called `name`: those
emitted while the most recent section title was `name`. -/
def attrGo (name : String) : Option String → List Entry → List String
  | _, [] => []
  | _, .sectionTitle s :: rest => attrGo name (some s) rest
  | cur, .contentPara t :: rest =>
    (if cur == some name then [t] else []) ++ attrGo name cur rest
  | cur, _ :: rest => attrGo name cur rest

/-- Content paragraphs of a trace attributed to section `name`. -/
def attributedTo (name : String) (es : List Entry) : List String :=
  attrGo name none es

example :
    create_pdf_report 20 true none ⟨"FINDINGS\nNormal.", "", "", "", none⟩ =
      some (.ok [.cellLine "MEDICAL IMAGING CENTER",
        .cellLine "Department of Radiology",
        .cellLine "RADIOLOGY REPORT", .metaLine,
        .cellLine "PATIENT INFORMATION",
        .cellLine "Name: Not provided", .cellLine "ID: Not provided",
        .narrativePara "FINDINGS\nNormal.",
        .sectionTitle "FINDINGS", .contentPara "Normal.",
        .signatureLine "AI Preliminary Interpretation",
        .disclaimerPara disclaimerText], []) := by decide
example :
    create_pdf_report 20 false none ⟨"", "", "", "", some [1, 2]⟩ =
      some (.error (), [.tmpWrite]) := by decide
example :
    create_pdf_report 20 true none ⟨"hello", "", "", "", none⟩ = none := by decide
example :
    attributedTo "FINDINGS" [.sectionTitle "FINDINGS", .contentPara "a",
      .sectionTitle "IMPRESSION", .contentPara "b",
      .sectionTitle "FINDINGS", .contentPara "c"] = ["a", "c"] := by decide

/-! ## Helper lemmas -/

/-- The missing `i += 1` of the outer loop: when the first line is
non-blank and matches no section header while no section is current, the
loop re-examines the same line forever, so no amount of fuel finishes it. -/
theorem structGo_stuck (l : String) (rest : List String)
    (hs : (pyStrip l == "") = false) (hm : headerMatch (pyStrip l) = none) :
    ∀ fuel, structGo fuel none (l :: rest) = ([], false) := by
  intro fuel
  induction fuel with
  | zero => rfl
  | succ n ih => simp [structGo, hs, hm, ih]

/-- When every attempt's external call raises, the retry loop runs all
three attempts, sleeps twice, and returns the sentinel string. -/
theorem generateReport_of_failures (oracle : Nat → Except String String)
    (h : ∀ k, k < max_retries → ∃ e, oracle k = .error e) :
    generate_report oracle = ⟨3, [2, 2], "Error generating report."⟩ := by
  obtain ⟨e0, h0⟩ := h 0 (by decide)
  obtain ⟨e1, h1⟩ := h 1 (by decide)
  obtain ⟨e2, h2⟩ := h 2 (by decide)
  simp [generate_report, generateGo, h0, h1, h2, max_retries, retry_delay]

/-- A stripped line matching no header at all cannot break the inner
collection loop either: the break test only checks the other sections. -/
theorem isOtherHeader_eq_false (cur s : String) (h : headerMatch s = none) :
    isOtherHeader cur s = false := by
  rw [headerMatch, List.find?_eq_none] at h
  rw [isOtherHeader, List.any_eq_false]
  intro sec hsec
  exact h sec (List.mem_of_mem_filter hsec)

/-- Unfolding of `renderContent` on a cons cell: the head contributes its
cleaned text if non-empty, and nothing otherwise. -/
theorem renderContent_cons (x : String) (xs : List String) :
    renderContent (x :: xs) =
      (if pyStrip (pyReplaceStars x) = "" then []
        else [Entry.contentPara (pyStrip (pyReplaceStars x))]) ++ renderContent xs := by
  by_cases h : pyStrip (pyReplaceStars x) = ""
  · simp [renderContent, List.filterMap_cons, h]
  · simp [renderContent, List.filterMap_cons, h]

theorem structTitles_append (a b : List Entry) :
    structTitles (a ++ b) = structTitles a ++ structTitles b := by
  induction a with
  | nil => rfl
  | cons e rest ih =>
    cases e <;> simp [structTitles, ih]

/-- Content rendering emits no section titles. -/
theorem structTitles_renderContent (c : List String) :
    structTitles (renderContent c) = [] := by
  induction c with
  | nil => rfl
  | cons x xs ih =>
    rw [renderContent_cons, structTitles_append, ih]
    by_cases h : pyStrip (pyReplaceStars x) = ""
    · simp [h, structTitles]
    · simp [h, structTitles]

/-! ## C1, C2: the divergence of the section loop -/

/-- C1: the claim asserts that for every narrative and every combination of
patient fields the renderer returns bytes containing the raw narrative.
In fact, on a headerless narrative such as `"hello"` the section loop of
`create_pdf_report` never terminates, so the call never returns any bytes
at all, for every patient-field combination and every amount of fuel. -/
theorem renderer_never_returns_on_headerless_narrative (pn pid doc : String) :
    ∀ fuel, create_pdf_report fuel true none ⟨"hello", pn, pid, doc, none⟩ = none := by
  intro fuel
  have hsplit : pySplitLines "hello" = ["hello"] := rfl
  have h := structGo_stuck "hello" [] (by decide) (by decide) fuel
  simp [create_pdf_report, hasImage, structuredPass, hsplit, h]

/-- C2: the claim asserts the section parser terminates on every input and
returns all five sections empty when no header is recognized.  In fact on
the headerless narrative `"No acute cardiopulmonary process."` the loop
never exits: no amount of fuel finishes it, because the line index is not
advanced when a non-blank non-header line is seen with no current section. -/
theorem parser_loop_diverges_on_headerless_text :
    ∀ fuel, structGo fuel none (pySplitLines "No acute cardiopulmonary process.") = ([], false) := by
  intro fuel
  have hsplit : pySplitLines "No acute cardiopulmonary process." =
      ["No acute cardiopulmonary process."] := rfl
  rw [hsplit]
  exact structGo_stuck _ [] (by decide) (by decide) fuel

/-! ## C10: the failure sentinel -/

/-- The sentinel string returned by `generate_report` after three failed
attempts (source line 93). -/
def errorSentinel : String := "Error generating report."

/-- `create_pdf_report` never returns when the narrative it is given is the
failure sentinel: the sentinel's single line matches no section header
while no section is current, so the section loop diverges for every
amount of fuel. -/
def sentinelRenderDiverges : Prop :=
  ∀ fuel, create_pdf_report fuel true none ⟨errorSentinel, "", "", "", none⟩ = none

/-- C10 counterexample: the sentinel is not, as claimed, rendered as the
document's narrative — the renderer diverges on it and returns nothing. -/
theorem error_sentinel_render_diverges : sentinelRenderDiverges := by
  intro fuel
  have hsplit : pySplitLines errorSentinel = [errorSentinel] := rfl
  have h := structGo_stuck errorSentinel [] (by decide) (by decide) fuel
  simp [create_pdf_report, hasImage, structuredPass, hsplit, h]

/-- `main` (source lines 409-415) passes the string stored from
`generate_report` to `create_pdf_report` as the report text, together with
the session's patient fields and image bytes. -/
def downloadPipeline (oracle : Nat → Except String String) (fuel : Nat)
    (pn pid doc : String) (img : Option (List Nat)) :
    Option (Except Unit (List Entry) × List FsEvent) :=
  create_pdf_report fuel true none ⟨(generate_report oracle).result, pn, pid, doc, img⟩

/-- C10 (amended): after three failed attempts the client returns the
ordinary non-empty string sentinel — same type as a successful narrative,
so the caller cannot distinguish failure by type — and `main` feeds it into
the renderer as the narrative; the content-preservation pass would write
it, but the section loop then diverges on it, so the pipeline never
produces document bytes. -/
theorem sentinel_is_plain_string_and_pipeline_diverges
    (oracle : Nat → Except String String)
    (h : ∀ k, k < max_retries → ∃ e, oracle k = .error e) :
    (generate_report oracle).result = errorSentinel ∧
    errorSentinel ≠ "" ∧
    ∀ fuel pn pid doc img, downloadPipeline oracle fuel pn pid doc img = none := by
  have hres : (generate_report oracle).result = errorSentinel := by
    rw [generateReport_of_failures oracle h]
    rfl
  refine ⟨hres, by decide, ?_⟩
  intro fuel pn pid doc img
  rw [downloadPipeline, hres]
  have hsplit : pySplitLines errorSentinel = [errorSentinel] := rfl
  have hstuck := structGo_stuck errorSentinel [] (by decide) (by decide) fuel
  simp [create_pdf_report, structuredPass, hsplit, hstuck]

theorem sentinel_is_plain_string_and_pipeline_diverges_witness :
    (generate_report fun _ => Except.error "down").result = errorSentinel ∧
    errorSentinel ≠ "" ∧
    downloadPipeline (fun _ => Except.error "down") 50 "" "" "" none = none := by
  have h := sentinel_is_plain_string_and_pipeline_diverges
    (fun _ => Except.error "down") (fun _ _ => ⟨"down", rfl⟩)
  exact ⟨h.1, h.2.1, h.2.2 50 "" "" "" none⟩

/-! ## C6: the retry policy -/

/-- C6: if every attempt's external call fails, exactly 3 attempts are
made, exactly 2 fixed delays of 2 time units are slept between them, and
the client returns a value to the caller instead of letting the exception
escape its boundary. -/
theorem client_three_attempts_two_delays (oracle : Nat → Except String String)
    (h : ∀ k, k < max_retries → ∃ e, oracle k = .error e) :
    (generate_report oracle).attempts = 3 ∧
    (generate_report oracle).sleeps = [retry_delay, retry_delay] ∧
    (generate_report oracle).result = "Error generating report." := by
  rw [generateReport_of_failures oracle h]
  exact ⟨rfl, rfl, rfl⟩

theorem client_three_attempts_two_delays_witness :
    (generate_report fun _ => Except.error "down").attempts = 3 ∧
    (generate_report fun _ => Except.error "down").sleeps = [retry_delay, retry_delay] ∧
    (generate_report fun _ => Except.error "down").result = "Error generating report." :=
  client_three_attempts_two_delays (fun _ => Except.error "down") (fun _ _ => ⟨"down", rfl⟩)

/-! ## C3: the renderer's exception boundary -/

/-- C3 counterexample: with image bytes supplied and the `pdf.image` call
failing (e.g. corrupt image bytes), the exception escapes
`create_pdf_report` — the image block is outside the `try` — so no
content-preservation output is returned. -/
theorem image_failure_escapes_renderer :
    create_pdf_report 50 false none ⟨"FINDINGS\nNormal.", "A", "1", "Dr", some [255, 216]⟩ =
      some (.error (), [.tmpWrite]) := by decide

/-- Entries of a renderer result when no exception escaped. -/
def okEntries : Except Unit (List Entry) → List Entry
  | .ok es => es
  | .error _ => []

/-- C3 (amended): every failure inside the structured pass — wherever it
strikes — is caught inside `create_pdf_report`, and whenever the call
returns, the result is a normal document whose entries contain the whole
raw narrative written by the content-preservation pass; only the image
block can raise past the renderer boundary. -/
theorem structured_failures_swallowed (fuel : Nat) (exnAfter : Option Nat)
    (inp : RenderInput) (r : Except Unit (List Entry) × List FsEvent)
    (h : create_pdf_report fuel true exnAfter inp = some r) :
    r.1.isOk = true ∧ Entry.narrativePara inp.report_text ∈ okEntries r.1 := by
  rw [create_pdf_report] at h
  simp only [Bool.not_true, Bool.and_false, Bool.false_eq_true, if_false] at h
  split at h
  · cases Option.some.inj h
    refine ⟨rfl, ?_⟩
    simp [okEntries]
  · exact absurd h (by simp)

/-- Concrete input exercising the amended C3: an injected failure at the
very start of the structured pass. -/
def wInp3 : RenderInput := ⟨"FINDINGS\nNormal.", "", "", "", none⟩

def w3entries : List Entry :=
  [.cellLine "MEDICAL IMAGING CENTER", .cellLine "Department of Radiology",
   .cellLine "RADIOLOGY REPORT", .metaLine, .cellLine "PATIENT INFORMATION",
   .cellLine "Name: Not provided", .cellLine "ID: Not provided",
   .narrativePara "FINDINGS\nNormal.",
   .signatureLine "AI Preliminary Interpretation", .disclaimerPara disclaimerText]

theorem structured_failures_swallowed_witness :
    (Except.ok w3entries : Except Unit (List Entry)).isOk = true ∧
    Entry.narrativePara wInp3.report_text ∈ okEntries (Except.ok w3entries) :=
  structured_failures_swallowed 30 (some 0) wInp3 (Except.ok w3entries, []) (by decide)

/-! ## C8: the transient image file -/

/-- C8 counterexample: on the image-failure exit path the transient file is
written but never unlinked — deletion is not guaranteed on all exit paths. -/
theorem temp_file_leaked_on_image_failure :
    create_pdf_report 10 false none ⟨"IMPRESSION\nClear.", "B", "2", "Dr. C", some [0]⟩ =
      some (.error (), [.tmpWrite]) ∧
    FsEvent.tmpUnlink ∉ [FsEvent.tmpWrite] := by decide

/-- C8 (amended): on every exit of `create_pdf_report`, the file events are
write-then-unlink when image bytes are supplied and the image call
succeeds, nothing when no (or empty) image bytes are supplied, and a
write with **no** unlink when the image call fails and the exception
escapes. -/
theorem temp_file_lifecycle (fuel : Nat) (imageOk : Bool) (exnAfter : Option Nat)
    (inp : RenderInput) (r : Except Unit (List Entry) × List FsEvent)
    (h : create_pdf_report fuel imageOk exnAfter inp = some r) :
    r.2 = if hasImage inp && !imageOk then [FsEvent.tmpWrite]
      else if hasImage inp then [FsEvent.tmpWrite, FsEvent.tmpUnlink] else [] := by
  rw [create_pdf_report] at h
  by_cases hc : (hasImage inp && !imageOk) = true
  · rw [if_pos hc] at h
    cases Option.some.inj h
    simp [hc]
  · have hc2 : (hasImage inp && !imageOk) = false := by
      rwa [Bool.not_eq_true] at hc
    rw [if_neg hc] at h
    simp only [hc2, Bool.false_eq_true, if_false]
    by_cases hp : (structuredPass exnAfter fuel inp.report_text).2 = true
    · simp only [hp, if_true] at h
      cases Option.some.inj h
      rfl
    · have hp2 : (structuredPass exnAfter fuel inp.report_text).2 = false := by
        rwa [Bool.not_eq_true] at hp
      simp only [hp2, Bool.false_eq_true, if_false] at h
      cases h

/-- Concrete input exercising the amended C8: image bytes present, image
call succeeding. -/
def wInp8 : RenderInput := ⟨"", "N", "7", "Dr. D", some [9, 9]⟩

def w8entries : List Entry :=
  [.cellLine "MEDICAL IMAGING CENTER", .cellLine "Department of Radiology",
   .cellLine "RADIOLOGY REPORT", .metaLine, .cellLine "PATIENT INFORMATION",
   .cellLine "Name: N", .cellLine "ID: 7", .imageEmbed, .narrativePara "",
   .signatureLine "Dr. D", .disclaimerPara disclaimerText]

theorem temp_file_lifecycle_witness :
    ((Except.ok w8entries : Except Unit (List Entry)),
        [FsEvent.tmpWrite, FsEvent.tmpUnlink]).2 =
      if hasImage wInp8 && !true then [FsEvent.tmpWrite]
      else if hasImage wInp8 then [FsEvent.tmpWrite, FsEvent.tmpUnlink] else [] :=
  temp_file_lifecycle 10 true none wInp8
    (Except.ok w8entries, [FsEvent.tmpWrite, FsEvent.tmpUnlink]) (by decide)

/-! ## C9: emphasized headers are never recognized -/

/-- A token starting with a non-asterisk character is never a prefix of a
character list starting with an asterisk. -/
theorem pyStartsWith_double_star (sec : String) (c : Char) (cs ys : List Char)
    (hsec : sec.data = c :: cs) (hc : (c == '*') = false) :
    pyStartsWith ⟨'*' :: ys⟩ sec = false := by
  unfold pyStartsWith
  rw [hsec]
  simp [List.isPrefixOf, hc]

/-- A string starting with the double-asterisk marker matches no section
header: all five tokens start with a letter, not an asterisk. -/
theorem starsNotHeader (r : String) : headerMatch ("**" ++ r) = none := by
  have hup : pyUpper ("**" ++ r) = ⟨'*' :: '*' :: r.data.map Char.toUpper⟩ := by
    cases r
    rfl
  have h1 : pyStartsWith (pyUpper ("**" ++ r)) "CLINICAL INFORMATION" = false := by
    rw [hup]
    exact pyStartsWith_double_star _ 'C' ("LINICAL INFORMATION".data) _ (by decide) (by decide)
  have h2 : pyStartsWith (pyUpper ("**" ++ r)) "TECHNIQUE" = false := by
    rw [hup]
    exact pyStartsWith_double_star _ 'T' ("ECHNIQUE".data) _ (by decide) (by decide)
  have h3 : pyStartsWith (pyUpper ("**" ++ r)) "COMPARISON" = false := by
    rw [hup]
    exact pyStartsWith_double_star _ 'C' ("OMPARISON".data) _ (by decide) (by decide)
  have h4 : pyStartsWith (pyUpper ("**" ++ r)) "FINDINGS" = false := by
    rw [hup]
    exact pyStartsWith_double_star _ 'F' ("INDINGS".data) _ (by decide) (by decide)
  have h5 : pyStartsWith (pyUpper ("**" ++ r)) "IMPRESSION" = false := by
    rw [hup]
    exact pyStartsWith_double_star _ 'I' ("MPRESSION".data) _ (by decide) (by decide)
  rw [headerMatch]
  simp [sectionNames, List.find?, h1, h2, h3, h4, h5]

/-- The emphasized-header narrative shape that the prompt of
`generate_report` instructs the generator to emit (uppercase bold headers,
source lines 46-67). -/
def emphNarrative : String :=
  "**FINDINGS**\n- Normal heart size.\n**IMPRESSION**\n- No acute disease."

/-- C9: a line whose stripped text begins with the double-asterisk emphasis
marker is never classified as a section header (matching requires the token
at the very start of the stripped line), and on a narrative whose headers
are all emphasized the structured pass recognizes no section: it emits no
title no matter how much fuel it is given. -/
theorem emphasized_headers_not_recognized :
    (∀ l r : String, pyStrip l = "**" ++ r → headerMatch (pyStrip l) = none) ∧
    (∀ fuel, structTitles (structGo fuel none (pySplitLines emphNarrative)).1 = []) := by
  constructor
  · intro l r hl
    rw [hl]
    exact starsNotHeader r
  · intro fuel
    have hsplit : pySplitLines emphNarrative =
        ["**FINDINGS**", "- Normal heart size.", "**IMPRESSION**", "- No acute disease."] := rfl
    rw [hsplit, structGo_stuck _ _ (by decide) (by decide) fuel]
    rfl

theorem emphasized_headers_not_recognized_witness :
    headerMatch (pyStrip "  **FINDINGS**") = none ∧
    structTitles (structGo 40 none (pySplitLines emphNarrative)).1 = [] :=
  ⟨emphasized_headers_not_recognized.1 "  **FINDINGS**" "FINDINGS**" (by decide),
   emphasized_headers_not_recognized.2 40⟩

/-! ## C4: title order in the structured pass -/

/-- C4 counterexample: with headers in non-canonical input order the titles
come out in input order (`IMPRESSION` before `FINDINGS`), which is not a
subsequence of the fixed taxonomy order; and `TECHNIQUE`, whose content is
empty, still gets a title line. -/
theorem titles_not_in_taxonomy_order :
    structTitles (structGo 30 none
        (pySplitLines "IMPRESSION\nNo fracture.\nFINDINGS\nIntact bones.\nTECHNIQUE")).1 =
      ["IMPRESSION", "FINDINGS", "TECHNIQUE"] ∧
    ¬ List.Sublist ["IMPRESSION", "FINDINGS", "TECHNIQUE"] sectionNames := by decide

/-- The header occurrences recognized by the outer scan, in encounter
order: the same traversal as `structGo`, recording only the matches. -/
def recognizedHeaders : Nat → Option String → List String → List String
  | 0, _, _ => []
  | _ + 1, _, [] => []
  | fuel + 1, cur?, l :: rest =>
    let s := pyStrip l
    if s == "" then recognizedHeaders fuel cur? rest
    else
      match headerMatch s with
      | some sec => sec :: recognizedHeaders fuel (some sec) rest
      | none =>
        match cur? with
        | some cur => recognizedHeaders fuel cur? (collectContent cur (l :: rest)).2
        | none => recognizedHeaders fuel cur? (l :: rest)

/-- C4 (amended): the structured pass emits exactly one title per header
occurrence recognized by the outer scan, in input encounter order — the
title is emitted unconditionally the moment the header line is seen, even
when the section's content turns out empty; only sections whose header is
never recognized get no title.  Title order follows the input, not the
taxonomy. -/
theorem titles_follow_encounter_order (fuel : Nat) (cur? : Option String)
    (lines : List String) :
    structTitles (structGo fuel cur? lines).1 = recognizedHeaders fuel cur? lines := by
  induction fuel generalizing cur? lines with
  | zero => rfl
  | succ n ih =>
    cases lines with
    | nil => rfl
    | cons l rest =>
      by_cases hs : (pyStrip l == "") = true
      · simp only [structGo, recognizedHeaders, hs, if_true]
        exact ih _ _
      · have hs2 : (pyStrip l == "") = false := by rwa [Bool.not_eq_true] at hs
        cases hm : headerMatch (pyStrip l) with
        | some sec =>
          simp only [structGo, recognizedHeaders, hs2, Bool.false_eq_true, if_false, hm]
          simp [structTitles, ih]
        | none =>
          cases cur? with
          | some cur =>
            simp only [structGo, recognizedHeaders, hs2, Bool.false_eq_true, if_false, hm]
            rw [structTitles_append, structTitles_renderContent]
            simp [ih]
          | none =>
            simp only [structGo, recognizedHeaders, hs2, Bool.false_eq_true, if_false, hm]
            exact ih _ _

/-! ## C5: header classification -/

/-- C5 counterexample: in `["FINDINGS", "a", "FINDINGS", "b"]` the second
`FINDINGS` line starts with a section token, yet it is not treated as a
header: it is collected and emitted as a content paragraph of the current
section, contradicting the claim's iff and its never-contributes-content
part. -/
theorem duplicate_header_line_becomes_content :
    (structGo 30 none ["FINDINGS", "a", "FINDINGS", "b"]).1 =
      [.sectionTitle "FINDINGS", .contentPara "a", .contentPara "FINDINGS",
        .contentPara "b"] ∧
    Entry.contentPara "FINDINGS" ∈ (structGo 30 none ["FINDINGS", "a", "FINDINGS", "b"]).1 := by
  decide

/-- C5 (amended): a line reaching the outer scan is classified as a header
iff its stripped text starts case-insensitively with one of the five
tokens (the remainder of the line is discarded); but inside content
collection only a line starting with a token of a *different* section ends
the block — every other non-blank stripped line, including one starting
with the current section's own token, is collected as content. -/
theorem content_collection_stops_only_at_other_sections (cur : String) (ls : List String) :
    collectContent cur ls =
      (((ls.takeWhile fun l => !isOtherHeader cur (pyStrip l)).map pyStrip).filter
          (fun s => !(s == "")),
        ls.dropWhile fun l => !isOtherHeader cur (pyStrip l)) := by
  induction ls with
  | nil => rfl
  | cons l rest ih =>
    by_cases h : isOtherHeader cur (pyStrip l) = true
    · simp [collectContent, List.takeWhile_cons, List.dropWhile_cons, h]
    · have h2 : isOtherHeader cur (pyStrip l) = false := by rwa [Bool.not_eq_true] at h
      by_cases hs : (pyStrip l == "") = true
      · simp [collectContent, List.takeWhile_cons, List.dropWhile_cons, h2, hs, ih]
      · have hs2 : (pyStrip l == "") = false := by rwa [Bool.not_eq_true] at hs
        simp [collectContent, List.takeWhile_cons, List.dropWhile_cons, h2, hs2, ih]

/-! ## C7: duplicate headers -/

/-- Attribution skips a rendered content block unless the current title is
the requested section, in which case it contributes exactly its texts. -/
theorem attrGo_renderContent (name : String) (cur? : Option String)
    (ts : List String) (rest : List Entry) :
    attrGo name cur? (renderContent ts ++ rest) =
      (if cur? == some name then contentTexts (renderContent ts) else []) ++
        attrGo name cur? rest := by
  induction ts with
  | nil =>
    by_cases h : (cur? == some name) = true
    · simp [renderContent, contentTexts, h]
    · have h2 : (cur? == some name) = false := by rwa [Bool.not_eq_true] at h
      simp [renderContent, contentTexts, h2]
  | cons x xs ih =>
    rw [renderContent_cons]
    by_cases hx : pyStrip (pyReplaceStars x) = ""
    · rw [if_pos hx]
      rw [List.nil_append]
      rw [ih]
    · rw [if_neg hx]
      have hsingle : ([Entry.contentPara (pyStrip (pyReplaceStars x))] ++ renderContent xs) ++ rest =
          Entry.contentPara (pyStrip (pyReplaceStars x)) :: (renderContent xs ++ rest) := by
        simp
      rw [hsingle]
      rw [attrGo, ih]
      by_cases h : (cur? == some name) = true
      · simp [contentTexts, h]
      · have h2 : (cur? == some name) = false := by rwa [Bool.not_eq_true] at h
        simp [contentTexts, h2]

theorem attrGo_renderContent_nil (name : String) (cur? : Option String)
    (ts : List String) :
    attrGo name cur? (renderContent ts) =
      (if cur? == some name then contentTexts (renderContent ts) else []) := by
  have h := attrGo_renderContent name cur? ts []
  simpa [attrGo] using h

/-- C7 (amended): when the same header name occurs twice in a narrative
that the section scan actually traverses — the narrative opens with a
header, and the duplicated sections' content lines are non-blank and match
no section token, so the loop never reaches a stuck state — all content
lines following each occurrence end up attributed to that section name, in
first-to-last encounter order, with nothing overwritten; content between
the two occurrences stays with its own section.  (Without that
reachability restriction the claim fails: see the divergence on a leading
non-header line.) -/
theorem duplicate_sections_append_in_encounter_order
    (a b c : String)
    (ha1 : (pyStrip a == "") = false) (ha2 : headerMatch (pyStrip a) = none)
    (hb1 : (pyStrip b == "") = false) (hb2 : headerMatch (pyStrip b) = none)
    (hc1 : (pyStrip c == "") = false) (hc2 : headerMatch (pyStrip c) = none) :
    attributedTo "FINDINGS"
        (structGo 10 none ["FINDINGS", a, "IMPRESSION", b, "FINDINGS", c]).1 =
      contentTexts (renderContent [pyStrip a]) ++
        contentTexts (renderContent [pyStrip c]) ∧
    attributedTo "IMPRESSION"
        (structGo 10 none ["FINDINGS", a, "IMPRESSION", b, "FINDINGS", c]).1 =
      contentTexts (renderContent [pyStrip b]) := by
  have oa := isOtherHeader_eq_false "FINDINGS" (pyStrip a) ha2
  have ob := isOtherHeader_eq_false "IMPRESSION" (pyStrip b) hb2
  have oc := isOtherHeader_eq_false "FINDINGS" (pyStrip c) hc2
  have e1 : pyStrip "FINDINGS" = "FINDINGS" := by decide
  have e2 : pyStrip "IMPRESSION" = "IMPRESSION" := by decide
  have e3 : headerMatch "FINDINGS" = some "FINDINGS" := by decide
  have e4 : headerMatch "IMPRESSION" = some "IMPRESSION" := by decide
  have e5 : isOtherHeader "FINDINGS" "IMPRESSION" = true := by decide
  have e6 : isOtherHeader "IMPRESSION" "FINDINGS" = true := by decide
  have htrace : (structGo 10 none ["FINDINGS", a, "IMPRESSION", b, "FINDINGS", c]).1 =
      Entry.sectionTitle "FINDINGS" :: (renderContent [pyStrip a] ++
        (Entry.sectionTitle "IMPRESSION" :: (renderContent [pyStrip b] ++
          (Entry.sectionTitle "FINDINGS" :: renderContent [pyStrip c])))) := by
    simp +decide [structGo, collectContent, ha1, ha2, hb1, hb2, hc1, hc2,
      oa, ob, oc, e1, e2, e3, e4, e5, e6]
  constructor
  · rw [htrace, attributedTo, attrGo, attrGo_renderContent, attrGo,
      attrGo_renderContent, attrGo, attrGo_renderContent_nil]
    simp +decide
  · rw [htrace, attributedTo, attrGo, attrGo_renderContent, attrGo,
      attrGo_renderContent, attrGo, attrGo_renderContent_nil]
    simp +decide

theorem duplicate_sections_append_in_encounter_order_witness :
    attributedTo "FINDINGS"
        (structGo 10 none ["FINDINGS", "Normal heart size.", "IMPRESSION",
          "No acute disease.", "FINDINGS", "Mild cardiomegaly."]).1 =
      contentTexts (renderContent [pyStrip "Normal heart size."]) ++
        contentTexts (renderContent [pyStrip "Mild cardiomegaly."]) ∧
    attributedTo "IMPRESSION"
        (structGo 10 none ["FINDINGS", "Normal heart size.", "IMPRESSION",
          "No acute disease.", "FINDINGS", "Mild cardiomegaly."]).1 =
      contentTexts (renderContent [pyStrip "No acute disease."]) :=
  duplicate_sections_append_in_encounter_order
    "Normal heart size." "No acute disease." "Mild cardiomegaly."
    (by decide) (by decide) (by decide) (by decide) (by decide) (by decide)

/-- On a narrative with a duplicated FINDINGS header preceded by a plain
non-header line, the section scan never gets past the first line: for every
amount of fuel the loop is still running, no entry is emitted, and no
content is ever attributed to the duplicated section. -/
def dupHeaderNarrativeDiverges : Prop :=
  ∀ fuel, structGo fuel none ["x", "FINDINGS", "a", "FINDINGS", "b"] = ([], false) ∧
    attributedTo "FINDINGS" (structGo fuel none ["x", "FINDINGS", "a", "FINDINGS", "b"]).1 = []

/-- C7 counterexample: the claim, read over every narrative in which a
header name occurs more than once, fails on
`["x", "FINDINGS", "a", "FINDINGS", "b"]`: the leading non-header line
leaves the loop stuck before either FINDINGS occurrence, so the content
lines following the occurrences are never attributed to the section at
all. -/
theorem duplicate_headers_claim_fails_on_stuck_narrative : dupHeaderNarrativeDiverges := by
  intro fuel
  have h := structGo_stuck "x" ["FINDINGS", "a", "FINDINGS", "b"] (by decide) (by decide) fuel
  rw [h]
  exact ⟨rfl, rfl⟩
